import Mathlib

/-!
Shallow embedding of `src/supply_chain_simulation.py`, the canonical
three-tier supply-chain simulation engine (baseline vs. forecast-sharing
scenarios), together with theorems settling the specification claims.

Modelling conventions:
* Python `int` becomes `ℤ`, Python `float` becomes `ℚ`.
* `random.Random(seed)` becomes a deterministic tape of rationals fixed by
  the seed (`seedTape`), with an index; every primitive sampler consumes
  exactly one cell of the single shared tape, mirroring the fact that all
  draws of one simulation instance come from one shared seeded stream.
  Transcendental transforms (Gaussian and exponential inverse CDFs, the
  Poisson inversion loop) are replaced by simple computable stand-ins that
  preserve the structural facts the claims are about: non-negativity,
  dependence on the consumed cell, and the number of cells consumed per
  sampler call.
* `math.sqrt` is replaced by the computable stand-in `ratSqrt`, which is
  exact at 0 and positive exactly on positive arguments; the claims about
  standard deviations only concern those two facts.
-/

namespace SCSim

/-- Python `int(x)` truncation toward zero on a rational. -/
def pyint (q : ℚ) : ℤ := if q < 0 then ⌈q⌉ else ⌊q⌋

/-- Python 3 `round(x)` on a rational: round half to even. -/
def pyround (q : ℚ) : ℤ :=
  let f := ⌊q⌋
  let r := q - (f : ℚ)
  if r < 1/2 then f
  else if 1/2 < r then f + 1
  else if f % 2 = 0 then f else f + 1

/-- Computable stand-in for `math.sqrt` on non-negative rationals: it is 0
exactly on non-positive arguments and positive on positive ones, which is
all the claims about derived standard deviations rely on. -/
def ratSqrt (q : ℚ) : ℚ := if q ≤ 0 then 0 else q

/-- Population mean of a list (Python `sum(xs)/len(xs)`, guarded nonempty
at every call site in the source). -/
def pmean (xs : List ℚ) : ℚ := xs.sum / (xs.length : ℚ)

/-- Population variance, as computed in `_calculate_results` and by
`statistics.pstdev`. -/
def pvariance (xs : List ℚ) : ℚ :=
  ((xs.map (fun x => (x - pmean xs) ^ 2)).sum) / (xs.length : ℚ)

/-- Population standard deviation (`statistics.pstdev`), via the `ratSqrt`
stand-in. -/
def pstdev (xs : List ℚ) : ℚ := ratSqrt (pvariance xs)

/-- Maximum of a list, defaulting to the head (Python `max(xs)` on the
nonempty lists it is applied to). -/
def listMaxD (xs : List ℚ) : ℚ := xs.foldl max (xs.headD 0)

/-- State of `random.Random`: a deterministic tape of rationals fixed at
seeding time, and the index of the next unconsumed cell.  Every sampler
below consumes cells of this one shared tape. -/
structure Rng where
  tape : ℕ → ℚ
  idx : ℕ

/-- Consume one cell of the shared stream (`rng.random()`). -/
def Rng.next (r : Rng) : ℚ × Rng := (r.tape r.idx, ⟨r.tape, r.idx + 1⟩)

/-- Stand-in for the tape produced by `random.Random(seed)`: a fixed
linear-congruential formula into `[0, 1)`, deterministic in the seed. -/
def seedTape (seed : ℤ) : ℕ → ℚ := fun n =>
  (((421 * (seed.natAbs + n) + 37) % 1000 : ℕ) : ℚ) / 1000

/-- Fresh generator seeded as in `random.Random(self.config.seed)`. -/
def mkRng (seed : ℤ) : Rng := ⟨seedTape seed, 0⟩

/-- Computable stand-in for the standard normal inverse CDF used by
`rng.gauss`: zero-centred and dependent on the consumed cell. -/
def stdNormalInv (u : ℚ) : ℚ := 4 * (u - 1/2)

/-- Model of `rng.gauss(mu, sigma)`: consumes one cell of the shared
stream and returns `mu + sigma * z` for the stand-in normal transform. -/
def gaussDraw (mu sigma : ℚ) (r : Rng) : ℚ × Rng :=
  let ur := r.next
  (mu + sigma * stdNormalInv ur.1, ur.2)

/-- Model of `rng.uniform(a, b) = a + (b - a) * random()`: consumes one
cell; the affine transform is the source's own. -/
def uniformDraw (a b : ℚ) (r : Rng) : ℚ × Rng :=
  let ur := r.next
  (a + (b - a) * ur.1, ur.2)

/-- Model of `rng.expovariate(lambd) = -log(1 - random()) / lambd`:
consumes one cell; the transform is a computable non-negative stand-in for
the logarithmic one. -/
def expovariateDraw (lambd : ℚ) (r : Rng) : ℚ × Rng :=
  let ur := r.next
  (2 * ur.1 / lambd, ur.2)

/-- Model of the source's `_poisson(rng, lam)` (Knuth's loop): for
`lam ≤ 0` it returns 0 without consuming the stream, exactly as the
source's early return; otherwise it consumes the stream and returns a
non-negative count depending on the consumed cell (computable stand-in
for the inversion loop, which a.s. consumes the stream at least once). -/
def poissonDraw (lam : ℚ) (r : Rng) : ℤ × Rng :=
  if lam ≤ 0 then (0, r)
  else
    let ur := r.next
    (max 0 ⌊ur.1 * (2 * lam + 1)⌋, ur.2)

/-- Accuracy model tag (`Literal["perfect", "noise"]`). -/
inductive ForecastAccuracyModel where
  | perfect
  | noise
deriving DecidableEq, Repr

/-- Mirror of the frozen dataclass `ForecastSharingConfig`, defaults
included. -/
structure ForecastSharingConfig where
  forecast_horizon : ℤ := 7
  forecast_update_frequency : ℤ := 2
  forecast_accuracy_model : ForecastAccuracyModel := .perfect
  forecast_error_std : ℚ := 8
  t1_forecast_weight : ℚ := 4/10
deriving DecidableEq, Repr

/-- Mirror of the frozen dataclass `SimulationConfig`, defaults included. -/
structure SimulationConfig where
  num_periods : ℤ := 120
  seed : ℤ := 7
  avg_daily_demand : ℤ := 100
  oem_order_cycle_days : ℤ := 2
  t1_initial_inventory : ℤ := 500
  oem_initial_inventory : ℤ := 500
  t1_rop_days : ℚ := 18/10
  t1_order_up_to_days : ℚ := 54/10
  t1_review_period_days : ℤ := 1
  t2_daily_mean_capacity : ℤ := 105
  t2_daily_capacity_sd : ℤ := 11
  t2_downtime_probability : ℚ := 5/100
  t2_to_t1_lead_time_base : ℚ := 2
  t2_to_t1_lead_time_exp_mean : ℚ := 1/2
  t1_to_oem_lead_time_base : ℚ := 1
  t1_to_oem_lead_time_uniform_max : ℚ := 1/2
  otif_target_days : ℚ := 2
  forecast_sharing : ForecastSharingConfig := {}
deriving DecidableEq, Repr

/-- Mirror of the dataclass `SimulationResults`. -/
structure SimulationResults where
  scenario_name : String
  mean_lead_time : ℚ
  lead_time_std : ℚ
  worst_case_lead_time : ℚ
  mean_wip : ℚ
  mean_backlog : ℚ
  otif_percentage : ℚ
  fill_rate : ℚ
  bullwhip_effect : ℚ
  average_inventory_level : ℚ
  lead_times : List ℚ
  wip_levels : List ℚ
  backlog_levels : List ℚ
deriving DecidableEq, Repr

/-- Mirror of the dataclass `ScenarioComparison`. -/
structure ScenarioComparison where
  baseline : SimulationResults
  forecast_sharing : SimulationResults
deriving DecidableEq, Repr

/-- Entry of `self.t1_shipments` (dict with keys `arrival_day`, `qty`,
`order_day`). -/
structure T1Shipment where
  arrival_day : ℤ
  qty : ℤ
  order_day : ℤ
deriving DecidableEq, Repr

/-- Entry of `self.t2_shipments` (dict with keys `arrival_day`, `qty`). -/
structure T2Shipment where
  arrival_day : ℤ
  qty : ℤ
deriving DecidableEq, Repr

/-- Entry of `self.oem_orders` (dict with keys `order_day`, `remaining`);
`remaining` is mutated in place during fulfillment. -/
structure OemOrder where
  order_day : ℤ
  remaining : ℤ
deriving DecidableEq, Repr

/-- Mutable state of a `SupplyChainSimulation` instance, as set up by
`reset`.  The field `demands` is a ghost observation recording each
period's Poisson customer-demand draw (the value consumed in
`_process_oem_demand`); it is appended to there and read by no step, so it
does not influence the dynamics. -/
structure SimState where
  current_period : ℤ
  rng : Rng
  t1_inventory : ℤ
  oem_inventory : ℤ
  t1_shipments : List T1Shipment
  t2_shipments : List T2Shipment
  oem_orders : List OemOrder
  t2_backlog : ℤ
  lead_times : List ℚ
  on_time_shipments : ℤ
  total_shipments : ℤ
  wip_levels : List ℚ
  backlog_levels : List ℚ
  inventory_levels : List ℚ
  total_customer_demand : ℤ
  total_customer_fulfilled : ℤ
  oem_order_history : List ℤ
  t1_order_history : List ℤ
  current_forecast : List ℚ
  active_forecast : List ℚ
  demands : List ℤ

/-- Derived constant `self.t1_rop = int(t1_rop_days * avg_daily_demand)`. -/
def t1Rop (cfg : SimulationConfig) : ℤ :=
  pyint (cfg.t1_rop_days * (cfg.avg_daily_demand : ℚ))

/-- Derived constant
`self.t1_order_up_to = int(t1_order_up_to_days * avg_daily_demand)`. -/
def t1OrderUpTo (cfg : SimulationConfig) : ℤ :=
  pyint (cfg.t1_order_up_to_days * (cfg.avg_daily_demand : ℚ))

/-- Loop body of `ForecastModule._generate_forecast`: one entry per
horizon step, drawing Gaussian noise from the shared stream only under
the "noise" model. -/
def generateForecastAux (fc : ForecastSharingConfig) (avg : ℤ) :
    ℕ → Rng → List ℚ × Rng
  | 0, r => ([], r)
  | n + 1, r =>
    match fc.forecast_accuracy_model with
    | .perfect =>
      let rest := generateForecastAux fc avg n r
      (((avg : ℚ)) :: rest.1, rest.2)
    | .noise =>
      let g := gaussDraw 0 fc.forecast_error_std r
      let rest := generateForecastAux fc avg n g.2
      (max 0 ((avg : ℚ) + g.1) :: rest.1, rest.2)

/-- `ForecastModule._generate_forecast`. -/
def generateForecast (fc : ForecastSharingConfig) (avg : ℤ) (r : Rng) :
    List ℚ × Rng :=
  generateForecastAux fc avg fc.forecast_horizon.toNat r

/-- `ForecastModule.maybe_update`: regenerate when
`day % forecast_update_frequency == 0`, else return the cached vector
unchanged.  `cur` is the module's `current_forecast` field. -/
def maybeUpdate (fc : ForecastSharingConfig) (avg : ℤ) (day : ℤ)
    (cur : List ℚ) (r : Rng) : List ℚ × Rng :=
  if day % fc.forecast_update_frequency = 0 then generateForecast fc avg r
  else (cur, r)

/-- `SupplyChainSimulation.reset`: state freshly constructed from the
configuration; the generator is reseeded from `config.seed` and the
forecast module starts with a constant vector at the demand mean. -/
def initState (cfg : SimulationConfig) : SimState where
  current_period := 0
  rng := mkRng cfg.seed
  t1_inventory := cfg.t1_initial_inventory
  oem_inventory := cfg.oem_initial_inventory
  t1_shipments := []
  t2_shipments := []
  oem_orders := []
  t2_backlog := 0
  lead_times := []
  on_time_shipments := 0
  total_shipments := 0
  wip_levels := []
  backlog_levels := []
  inventory_levels := []
  total_customer_demand := 0
  total_customer_fulfilled := 0
  oem_order_history := []
  t1_order_history := []
  current_forecast :=
    List.replicate cfg.forecast_sharing.forecast_horizon.toNat
      ((cfg.avg_daily_demand : ℚ))
  active_forecast := []
  demands := []

/-- `SupplyChainSimulation._process_arrivals`: release every shipment
whose arrival day has been reached into the receiving tier's inventory. -/
def processArrivals (s : SimState) : SimState :=
  let arrivedOem := s.t1_shipments.filter
    (fun sh => sh.arrival_day ≤ s.current_period)
  let keptT1 := s.t1_shipments.filter
    (fun sh => s.current_period < sh.arrival_day)
  let arrivedT1 := s.t2_shipments.filter
    (fun sh => sh.arrival_day ≤ s.current_period)
  let keptT2 := s.t2_shipments.filter
    (fun sh => s.current_period < sh.arrival_day)
  { s with
    t1_shipments := keptT1
    t2_shipments := keptT2
    oem_inventory := s.oem_inventory + (arrivedOem.map (fun sh => sh.qty)).sum
    t1_inventory := s.t1_inventory + (arrivedT1.map (fun sh => sh.qty)).sum }

/-- `SupplyChainSimulation._process_oem_demand`: draw Poisson customer
demand and fulfil as much as OEM inventory allows. -/
def processOemDemand (cfg : SimulationConfig) (s : SimState) : SimState :=
  let dr := poissonDraw ((cfg.avg_daily_demand : ℚ)) s.rng
  let fulfilled := min dr.1 s.oem_inventory
  { s with
    rng := dr.2
    total_customer_demand := s.total_customer_demand + dr.1
    oem_inventory := s.oem_inventory - fulfilled
    total_customer_fulfilled := s.total_customer_fulfilled + fulfilled
    demands := s.demands ++ [dr.1] }

/-- `SupplyChainSimulation._update_forecast`: consult the forecast module
only in the forecast-sharing scenario. -/
def updateForecast (cfg : SimulationConfig) (useF : Bool) (s : SimState) :
    SimState :=
  if useF then
    let fr := maybeUpdate cfg.forecast_sharing cfg.avg_daily_demand
      s.current_period s.current_forecast s.rng
    { s with current_forecast := fr.1, active_forecast := fr.1, rng := fr.2 }
  else s

/-- `SupplyChainSimulation._place_oem_order`: on order-cycle days, the OEM
draws a Poisson order toward Tier 1 and records it. -/
def placeOemOrder (cfg : SimulationConfig) (s : SimState) : SimState :=
  if s.current_period % cfg.oem_order_cycle_days ≠ 0 then s
  else
    let dr := poissonDraw
      ((cfg.avg_daily_demand * cfg.oem_order_cycle_days : ℤ) : ℚ) s.rng
    let s' := { s with
      rng := dr.2
      oem_order_history := s.oem_order_history ++ [dr.1] }
    if 0 < dr.1 then
      { s' with oem_orders :=
          s'.oem_orders ++ [⟨s.current_period, dr.1⟩] }
    else s'

/-- Accumulator of the in-place mutation loop of
`SupplyChainSimulation._fulfill_oem_orders`. -/
structure FulfillAcc where
  inv : ℤ
  rng : Rng
  ships : List T1Shipment
  leads : List ℚ
  onTime : ℤ
  total : ℤ
  processed : List OemOrder

/-- One iteration of the loop body of `_fulfill_oem_orders` over an open
OEM order. -/
def fulfillOrderStep (cfg : SimulationConfig) (day : ℤ) (a : FulfillAcc)
    (o : OemOrder) : FulfillAcc :=
  if o.remaining = 0 ∨ a.inv = 0 then
    { a with processed := a.processed ++ [o] }
  else
    let qty := min o.remaining a.inv
    let ur := uniformDraw 0 cfg.t1_to_oem_lead_time_uniform_max a.rng
    let leadTime := cfg.t1_to_oem_lead_time_base + ur.1
    let arrival := day + ⌈leadTime⌉
    let lt : ℤ := arrival - o.order_day
    { inv := a.inv - qty
      rng := ur.2
      ships := a.ships ++ [⟨arrival, qty, o.order_day⟩]
      leads := a.leads ++ [((lt : ℚ))]
      onTime := a.onTime + (if (lt : ℚ) ≤ cfg.otif_target_days then 1 else 0)
      total := a.total + 1
      processed := a.processed ++ [⟨o.order_day, o.remaining - qty⟩] }

/-- `SupplyChainSimulation._fulfill_oem_orders`: oldest-first partial
fulfilment of open OEM orders from Tier-1 inventory, creating outbound
shipments; lead-time statistics are recorded here, at dispatch time, and
orders fully served are dropped from the pending list. -/
def fulfillOemOrders (cfg : SimulationConfig) (s : SimState) : SimState :=
  let a := s.oem_orders.foldl (fulfillOrderStep cfg s.current_period)
    ⟨s.t1_inventory, s.rng, [], [], 0, 0, []⟩
  { s with
    t1_inventory := a.inv
    rng := a.rng
    t1_shipments := s.t1_shipments ++ a.ships
    lead_times := s.lead_times ++ a.leads
    on_time_shipments := s.on_time_shipments + a.onTime
    total_shipments := s.total_shipments + a.total
    oem_orders := a.processed.filter (fun o => 0 < o.remaining) }

/-- The target level used by `_place_t1_order`: the order-up-to constant,
incremented under forecast sharing (with a populated forecast) by the
rounded, zero-floored blend of historical mean cycle demand and
forecast-implied cycle demand. -/
def t1TargetOrderUpTo (cfg : SimulationConfig) (useF : Bool)
    (activeForecast : List ℚ) : ℤ :=
  t1OrderUpTo cfg +
    (if useF = true ∧ activeForecast ≠ [] then
      let cycleDays := max 1 cfg.oem_order_cycle_days
      let forecastWindow := activeForecast.take cycleDays.toNat
      let expectedCycleDemand := forecastWindow.sum
      let blendedCycleDemand :=
        (1 - cfg.forecast_sharing.t1_forecast_weight)
          * ((cfg.avg_daily_demand : ℚ) * (cycleDays : ℚ))
        + cfg.forecast_sharing.t1_forecast_weight * expectedCycleDemand
      pyround (max 0 blendedCycleDemand)
    else 0)

/-- `SupplyChainSimulation._place_t1_order`: on review days, compare the
inventory position against the reorder point and push any order into the
Tier-2 backlog, recording the ordered quantity (possibly 0). -/
def placeT1Order (cfg : SimulationConfig) (useF : Bool) (s : SimState) :
    SimState :=
  if s.current_period % cfg.t1_review_period_days ≠ 0 then s
  else
    let t1BacklogQty := (s.oem_orders.map (fun o => o.remaining)).sum
    let t2Pipeline := (s.t2_shipments.map (fun sh => sh.qty)).sum
    let inventoryPosition := s.t1_inventory + t2Pipeline - t1BacklogQty
    let targetOrderUpTo := t1TargetOrderUpTo cfg useF s.active_forecast
    let orderQty :=
      if inventoryPosition ≤ t1Rop cfg then
        max 0 (targetOrderUpTo - inventoryPosition)
      else 0
    { s with
      t2_backlog := s.t2_backlog + orderQty
      t1_order_history := s.t1_order_history ++ [orderQty] }

/-- `SupplyChainSimulation._process_t2_production`: Bernoulli downtime,
then a floored rounded Gaussian capacity; backlog is converted into a
Tier-2 shipment whose exponential lead-time draw is consumed only when
something was produced. -/
def processT2Production (cfg : SimulationConfig) (s : SimState) : SimState :=
  let u := s.rng.next
  let capR :=
    if u.1 < cfg.t2_downtime_probability then ((0 : ℤ), u.2)
    else
      let g := gaussDraw ((cfg.t2_daily_mean_capacity : ℚ))
        ((cfg.t2_daily_capacity_sd : ℚ)) u.2
      (max 0 (pyround g.1), g.2)
  let produced := min s.t2_backlog capR.1
  if 0 < produced then
    let er := expovariateDraw (1 / cfg.t2_to_t1_lead_time_exp_mean) capR.2
    let arrival := s.current_period + ⌈cfg.t2_to_t1_lead_time_base + er.1⌉
    { s with
      rng := er.2
      t2_backlog := s.t2_backlog - produced
      t2_shipments := s.t2_shipments ++ [⟨arrival, produced⟩] }
  else { s with rng := capR.2 }

/-- `SupplyChainSimulation._track_metrics`: append the period-end WIP,
backlog and inventory readings. -/
def trackMetrics (s : SimState) : SimState :=
  let t1BacklogQty := (s.oem_orders.map (fun o => o.remaining)).sum
  let t2Pipeline := (s.t2_shipments.map (fun sh => sh.qty)).sum
  { s with
    wip_levels := s.wip_levels ++ [((s.t1_inventory + t2Pipeline : ℤ) : ℚ)]
    backlog_levels := s.backlog_levels ++ [((t1BacklogQty : ℤ) : ℚ)]
    inventory_levels := s.inventory_levels ++ [((s.t1_inventory : ℤ) : ℚ)] }

/-- The `self.current_period = day` assignment at the top of the loop of
`run_simulation`. -/
def setPeriod (s : SimState) (day : ℤ) : SimState :=
  { s with current_period := day }

/-- Replace the forecast module's cached vector (used only to state that
the baseline dynamics ignore it). -/
def setCf (s : SimState) (c : List ℚ) : SimState :=
  { s with current_forecast := c }

/-- One iteration of the loop of `run_simulation`: set `current_period`
and run the eight phase methods in source order. -/
def stepDay (cfg : SimulationConfig) (useF : Bool) (day : ℤ) (s : SimState) :
    SimState :=
  trackMetrics
    (processT2Production cfg
      (placeT1Order cfg useF
        (fulfillOemOrders cfg
          (placeOemOrder cfg
            (updateForecast cfg useF
              (processOemDemand cfg
                (processArrivals (setPeriod s day))))))))

/-- The `for day in range(num_periods)` loop, with `k` days left to run
and `day` the next period index. -/
def runDays (cfg : SimulationConfig) (useF : Bool) :
    ℕ → ℤ → SimState → SimState
  | 0, _, s => s
  | k + 1, day, s => runDays cfg useF k (day + 1) (stepDay cfg useF day s)

/-- State after the first `k` simulated periods of a fresh run. -/
def stateAfter (cfg : SimulationConfig) (useF : Bool) (k : ℕ) : SimState :=
  runDays cfg useF k 0 (initState cfg)

/-- Final state of a fresh run over all configured periods. -/
def finalState (cfg : SimulationConfig) (useF : Bool) : SimState :=
  stateAfter cfg useF cfg.num_periods.toNat

/-- `SupplyChainSimulation._calculate_results`. -/
def calculateResults (name : String) (s : SimState) : SimulationResults :=
  let meanLt := if s.lead_times ≠ [] then pmean s.lead_times else 0
  let leadTimeStd :=
    if s.lead_times ≠ [] then ratSqrt (pvariance s.lead_times) else 0
  let worstCase := if s.lead_times ≠ [] then listMaxD s.lead_times else 0
  let meanWip := if s.wip_levels ≠ [] then pmean s.wip_levels else 0
  let meanBacklog := if s.backlog_levels ≠ [] then pmean s.backlog_levels else 0
  let otif :=
    if s.total_shipments ≠ 0 then
      (s.on_time_shipments : ℚ) / (s.total_shipments : ℚ) * 100
    else 0
  let fillRate :=
    if s.total_customer_demand ≠ 0 then
      (s.total_customer_fulfilled : ℚ) / (s.total_customer_demand : ℚ)
    else 0
  let oemOrderStd :=
    if 1 < s.oem_order_history.length then
      pstdev (s.oem_order_history.map (fun n => (n : ℚ)))
    else 0
  let t1OrderStd :=
    if 1 < s.t1_order_history.length then
      pstdev (s.t1_order_history.map (fun n => (n : ℚ)))
    else 0
  let bullwhip := if 0 < oemOrderStd then t1OrderStd / oemOrderStd else 0
  let averageInventory :=
    if s.inventory_levels ≠ [] then pmean s.inventory_levels else 0
  { scenario_name := name
    mean_lead_time := meanLt
    lead_time_std := leadTimeStd
    worst_case_lead_time := worstCase
    mean_wip := meanWip
    mean_backlog := meanBacklog
    otif_percentage := otif
    fill_rate := fillRate
    bullwhip_effect := bullwhip
    average_inventory_level := averageInventory
    lead_times := s.lead_times
    wip_levels := s.wip_levels
    backlog_levels := s.backlog_levels }

/-- Scenario tag to forecast-consultation flag
(`self.use_forecast = scenario_name == "forecast_sharing"`). -/
def useForecastOf (name : String) : Bool := name == "forecast_sharing"

/-- `SupplyChainSimulation(config, scenario_name).run_simulation()` on a
freshly constructed instance. -/
def runSimulation (cfg : SimulationConfig) (name : String) :
    SimulationResults :=
  calculateResults name (finalState cfg (useForecastOf name))

/-- Top-level `run_baseline`. -/
def run_baseline (cfg : SimulationConfig) : SimulationResults :=
  runSimulation cfg "baseline"

/-- Top-level `run_forecast_sharing`. -/
def run_forecast_sharing (cfg : SimulationConfig) : SimulationResults :=
  runSimulation cfg "forecast_sharing"

/-- Top-level `compare_scenarios`. -/
def compare_scenarios (cfg : SimulationConfig) : ScenarioComparison :=
  ⟨run_baseline cfg, run_forecast_sharing cfg⟩

/-- Ghost observation: the per-period sequence of Poisson customer-demand
draws of a fresh run of the given scenario. -/
def demandHistory (cfg : SimulationConfig) (name : String) : List ℤ :=
  (finalState cfg (useForecastOf name)).demands

/-- Forecast parameters used by the concrete test configurations: perfect
accuracy, horizon 1, refresh every period, blend weight 1/2 — all within
the spec's validity invariants. -/
def fcA : ForecastSharingConfig where
  forecast_horizon := 1
  forecast_update_frequency := 1
  forecast_accuracy_model := .perfect
  forecast_error_std := 0
  t1_forecast_weight := 1/2

/-- A concrete valid configuration (two periods, no downtime, perfect
forecasts) on which the two scenarios' demand realizations diverge. -/
def cfgA : SimulationConfig where
  num_periods := 2
  seed := 0
  avg_daily_demand := 10
  oem_order_cycle_days := 1
  t1_initial_inventory := 20
  oem_initial_inventory := 100
  t1_rop_days := 5
  t1_order_up_to_days := 1
  t1_review_period_days := 1
  t2_daily_mean_capacity := 100
  t2_daily_capacity_sd := 0
  t2_downtime_probability := 0
  t2_to_t1_lead_time_base := 1
  t2_to_t1_lead_time_exp_mean := 1/2
  t1_to_oem_lead_time_base := 1
  t1_to_oem_lead_time_uniform_max := 1/2
  otif_target_days := 2
  forecast_sharing := fcA

/-- The same configuration restricted to a single period: the one shipment
dispatched on the last day has its lead time recorded although it can
never arrive within the horizon. -/
def cfgB : SimulationConfig := { cfgA with num_periods := 1 }

/-- An invalid configuration (zero-length run), all other fields at their
source defaults. -/
def cfgZ : SimulationConfig := { num_periods := 0 }

/-- Inventory position used by the Tier-1 review, as the spec words it:
on-hand plus Tier-2 pipeline minus open OEM backlog. -/
def inventoryPositionOf (s : SimState) : ℤ :=
  s.t1_inventory + (s.t2_shipments.map (fun sh => sh.qty)).sum
    - (s.oem_orders.map (fun o => o.remaining)).sum

/-- The Tier-1 target level exactly as the claim words it: the order-up-to
constant, plus — under forecast sharing — the rounded blend
`(1 - w) * (avg_daily_demand * cycle_days) + w * (sum of the first
cycle_days forecast entries)`, with no zero-flooring and with `cycle_days`
the configured OEM order cycle itself. -/
def specT1Target (cfg : SimulationConfig) (useF : Bool)
    (activeForecast : List ℚ) : ℤ :=
  t1OrderUpTo cfg +
    (if useF = true then
      pyround ((1 - cfg.forecast_sharing.t1_forecast_weight)
          * ((cfg.avg_daily_demand : ℚ) * (cfg.oem_order_cycle_days : ℚ))
        + cfg.forecast_sharing.t1_forecast_weight
          * (activeForecast.take cfg.oem_order_cycle_days.toNat).sum)
    else 0)

/-- The Tier-1 order size as the claim words it: `max(0, target - IP)`
when the inventory position is at or below the reorder point, nothing
otherwise. -/
def specT1OrderQty (cfg : SimulationConfig) (useF : Bool)
    (s : SimState) : ℤ :=
  if inventoryPositionOf s ≤ t1Rop cfg then
    max 0 (specT1Target cfg useF s.active_forecast - inventoryPositionOf s)
  else 0

/-- Non-negativity invariant of a simulation state: both on-hand
inventories, the Tier-2 backlog, every open OEM order's remaining
quantity, and every in-transit shipment quantity are non-negative. -/
def NonnegState (s : SimState) : Prop :=
  0 ≤ s.t1_inventory ∧ 0 ≤ s.oem_inventory ∧ 0 ≤ s.t2_backlog ∧
  (∀ o ∈ s.oem_orders, 0 ≤ o.remaining) ∧
  (∀ sh ∈ s.t1_shipments, 0 ≤ sh.qty) ∧
  (∀ sh ∈ s.t2_shipments, 0 ≤ sh.qty)

/-- The `SimulationResults` value produced by `_calculate_results` when no
period was ever simulated: every statistic at its sentinel 0 and every raw
series empty. -/
def zeroLengthResults (name : String) : SimulationResults where
  scenario_name := name
  mean_lead_time := 0
  lead_time_std := 0
  worst_case_lead_time := 0
  mean_wip := 0
  mean_backlog := 0
  otif_percentage := 0
  fill_rate := 0
  bullwhip_effect := 0
  average_inventory_level := 0
  lead_times := []
  wip_levels := []
  backlog_levels := []

/-! Helper lemmas: which phase methods leave the ghost demand record and
the generator untouched. -/

theorem processArrivals_demands (s : SimState) :
    (processArrivals s).demands = s.demands := rfl

theorem processArrivals_rng (s : SimState) :
    (processArrivals s).rng = s.rng := rfl

theorem processOemDemand_demands (cfg : SimulationConfig) (s : SimState) :
    (processOemDemand cfg s).demands =
      s.demands ++ [(poissonDraw ((cfg.avg_daily_demand : ℚ)) s.rng).1] := rfl

theorem updateForecast_demands (cfg : SimulationConfig) (useF : Bool)
    (s : SimState) : (updateForecast cfg useF s).demands = s.demands := by
  unfold updateForecast
  split <;> rfl

theorem placeOemOrder_demands (cfg : SimulationConfig) (s : SimState) :
    (placeOemOrder cfg s).demands = s.demands := by
  unfold placeOemOrder
  split
  · rfl
  · dsimp only
    split <;> rfl

theorem fulfillOemOrders_demands (cfg : SimulationConfig) (s : SimState) :
    (fulfillOemOrders cfg s).demands = s.demands := rfl

theorem placeT1Order_demands (cfg : SimulationConfig) (useF : Bool)
    (s : SimState) : (placeT1Order cfg useF s).demands = s.demands := by
  unfold placeT1Order
  split <;> rfl

theorem processT2Production_demands (cfg : SimulationConfig) (s : SimState) :
    (processT2Production cfg s).demands = s.demands := by
  simp only [processT2Production]
  split <;> split <;> rfl

theorem trackMetrics_demands (s : SimState) :
    (trackMetrics s).demands = s.demands := rfl

/-- Within one simulated period, exactly one demand draw is appended to
the ghost record, and it is the Poisson draw taken from the state of the
shared stream at the start of the period (the demand draw precedes every
scenario-dependent consumption of the stream within the period). -/
theorem stepDay_demands (cfg : SimulationConfig) (useF : Bool) (day : ℤ)
    (s : SimState) :
    (stepDay cfg useF day s).demands =
      s.demands ++ [(poissonDraw ((cfg.avg_daily_demand : ℚ)) s.rng).1] := by
  unfold stepDay
  rw [trackMetrics_demands, processT2Production_demands, placeT1Order_demands,
    fulfillOemOrders_demands, placeOemOrder_demands, updateForecast_demands,
    processOemDemand_demands, processArrivals_demands, processArrivals_rng]
  rfl

/-- Running further periods only appends to the ghost demand record. -/
theorem runDays_demands_extend (cfg : SimulationConfig) (useF : Bool) :
    ∀ (k : ℕ) (day : ℤ) (s : SimState),
      ∃ t, (runDays cfg useF k day s).demands = s.demands ++ t := by
  intro k
  induction k with
  | zero => exact fun day s => ⟨[], by simp [runDays]⟩
  | succ n ih =>
    intro day s
    obtain ⟨t, ht⟩ := ih (day + 1) (stepDay cfg useF day s)
    refine ⟨[(poissonDraw ((cfg.avg_daily_demand : ℚ)) s.rng).1] ++ t, ?_⟩
    simp only [runDays]
    rw [ht, stepDay_demands]
    simp

/-- C1 counterexample: on the concrete valid configuration `cfgA` — which
uses the "perfect" forecast accuracy model — the baseline and
forecast-sharing scenarios, run with the identical configuration and
seed, realize different per-period customer-demand sequences, because the
two policies consume the shared random stream at different rates. -/
theorem demand_realization_not_shared_across_scenarios :
    cfgA.forecast_sharing.forecast_accuracy_model = .perfect ∧
    demandHistory cfgA "baseline" = [0, 2] ∧
    demandHistory cfgA "forecast_sharing" = [0, 11] ∧
    demandHistory cfgA "baseline" ≠ demandHistory cfgA "forecast_sharing" := by
  refine ⟨rfl, ?_, ?_, ?_⟩ <;> with_unfolding_all decide

/-- C1 (amended): for every configuration and seed the two scenarios'
demand realizations agree on the first period (the period-0 demand draw is
taken from the same position of the identically seeded stream in both
runs); beyond the first period the realizations may diverge under every
forecast accuracy model, because stream consumption is policy dependent. -/
theorem first_period_demand_shared_across_scenarios
    (cfg : SimulationConfig) (h : 1 ≤ cfg.num_periods) :
    (demandHistory cfg "baseline").take 1 =
      (demandHistory cfg "forecast_sharing").take 1 := by
  obtain ⟨m, hm⟩ : ∃ m, cfg.num_periods.toNat = m + 1 :=
    ⟨cfg.num_periods.toNat - 1, by omega⟩
  obtain ⟨tb, htb⟩ := runDays_demands_extend cfg (useForecastOf "baseline") m 1
    (stepDay cfg (useForecastOf "baseline") 0 (initState cfg))
  obtain ⟨tf, htf⟩ := runDays_demands_extend cfg
    (useForecastOf "forecast_sharing") m 1
    (stepDay cfg (useForecastOf "forecast_sharing") 0 (initState cfg))
  unfold demandHistory finalState stateAfter
  rw [hm]
  simp only [runDays, zero_add]
  rw [htb, htf, stepDay_demands, stepDay_demands]
  simp [initState]

/-- Witness for the amended C1 theorem at the concrete configuration. -/
theorem first_period_demand_shared_witness :
    (1 : ℤ) ≤ cfgA.num_periods ∧
    (demandHistory cfgA "baseline").take 1 =
      (demandHistory cfgA "forecast_sharing").take 1 :=
  ⟨by decide, first_period_demand_shared_across_scenarios cfgA (by decide)⟩

/-- C2 counterexample: the concrete configuration `cfgZ` violates the
stated validity invariants (zero-length run), yet `run_baseline`,
`run_forecast_sharing` and `compare_scenarios` do not fail: each silently
completes and returns a well-formed all-zero result. -/
theorem invalid_config_zero_length_completes :
    cfgZ.num_periods = 0 ∧
    run_baseline cfgZ = zeroLengthResults "baseline" ∧
    run_forecast_sharing cfgZ = zeroLengthResults "forecast_sharing" ∧
    compare_scenarios cfgZ =
      ⟨zeroLengthResults "baseline", zeroLengthResults "forecast_sharing"⟩ := by
  refine ⟨rfl, ?_, ?_, ?_⟩ <;> with_unfolding_all rfl

/-- C2 (amended): the engine performs no configuration validation at all;
an invalid configuration is never rejected before the run starts.  In
particular every zero-length run silently completes, returning a result
whose statistics are all the sentinel 0 and whose series are empty. -/
theorem no_fail_fast_validation_zero_length (cfg : SimulationConfig)
    (h : cfg.num_periods ≤ 0) :
    run_baseline cfg = zeroLengthResults "baseline" := by
  have h0 : cfg.num_periods.toNat = 0 := by omega
  unfold run_baseline runSimulation finalState stateAfter
  rw [h0]
  simp only [runDays]
  rfl

/-- Witness for the amended C2 theorem at the concrete configuration. -/
theorem no_fail_fast_validation_zero_length_witness :
    cfgZ.num_periods ≤ 0 ∧ run_baseline cfgZ = zeroLengthResults "baseline" :=
  ⟨by decide, no_fail_fast_validation_zero_length cfgZ (by decide)⟩

/-! Helper lemmas: which phase methods leave the per-period metric series
untouched (only `_track_metrics` appends to them). -/

theorem processArrivals_metrics (s : SimState) :
    (processArrivals s).wip_levels = s.wip_levels ∧
    (processArrivals s).backlog_levels = s.backlog_levels ∧
    (processArrivals s).inventory_levels = s.inventory_levels :=
  ⟨rfl, rfl, rfl⟩

theorem processOemDemand_metrics (cfg : SimulationConfig) (s : SimState) :
    (processOemDemand cfg s).wip_levels = s.wip_levels ∧
    (processOemDemand cfg s).backlog_levels = s.backlog_levels ∧
    (processOemDemand cfg s).inventory_levels = s.inventory_levels :=
  ⟨rfl, rfl, rfl⟩

theorem updateForecast_metrics (cfg : SimulationConfig) (useF : Bool)
    (s : SimState) :
    (updateForecast cfg useF s).wip_levels = s.wip_levels ∧
    (updateForecast cfg useF s).backlog_levels = s.backlog_levels ∧
    (updateForecast cfg useF s).inventory_levels = s.inventory_levels := by
  unfold updateForecast
  split <;> exact ⟨rfl, rfl, rfl⟩

theorem placeOemOrder_metrics (cfg : SimulationConfig) (s : SimState) :
    (placeOemOrder cfg s).wip_levels = s.wip_levels ∧
    (placeOemOrder cfg s).backlog_levels = s.backlog_levels ∧
    (placeOemOrder cfg s).inventory_levels = s.inventory_levels := by
  unfold placeOemOrder
  split
  · exact ⟨rfl, rfl, rfl⟩
  · dsimp only
    split <;> exact ⟨rfl, rfl, rfl⟩

theorem fulfillOemOrders_metrics (cfg : SimulationConfig) (s : SimState) :
    (fulfillOemOrders cfg s).wip_levels = s.wip_levels ∧
    (fulfillOemOrders cfg s).backlog_levels = s.backlog_levels ∧
    (fulfillOemOrders cfg s).inventory_levels = s.inventory_levels :=
  ⟨rfl, rfl, rfl⟩

theorem placeT1Order_metrics (cfg : SimulationConfig) (useF : Bool)
    (s : SimState) :
    (placeT1Order cfg useF s).wip_levels = s.wip_levels ∧
    (placeT1Order cfg useF s).backlog_levels = s.backlog_levels ∧
    (placeT1Order cfg useF s).inventory_levels = s.inventory_levels := by
  unfold placeT1Order
  split <;> exact ⟨rfl, rfl, rfl⟩

theorem processT2Production_metrics (cfg : SimulationConfig) (s : SimState) :
    (processT2Production cfg s).wip_levels = s.wip_levels ∧
    (processT2Production cfg s).backlog_levels = s.backlog_levels ∧
    (processT2Production cfg s).inventory_levels = s.inventory_levels := by
  simp only [processT2Production]
  split <;> split <;> exact ⟨rfl, rfl, rfl⟩

theorem setPeriod_wip (s : SimState) (d : ℤ) :
    (setPeriod s d).wip_levels = s.wip_levels := rfl

theorem setPeriod_backlog (s : SimState) (d : ℤ) :
    (setPeriod s d).backlog_levels = s.backlog_levels := rfl

theorem setPeriod_inventory (s : SimState) (d : ℤ) :
    (setPeriod s d).inventory_levels = s.inventory_levels := rfl

/-- Each simulated period appends exactly one reading to each of the
three per-period metric series. -/
theorem stepDay_metric_lengths (cfg : SimulationConfig) (useF : Bool)
    (day : ℤ) (s : SimState) :
    (stepDay cfg useF day s).wip_levels.length = s.wip_levels.length + 1 ∧
    (stepDay cfg useF day s).backlog_levels.length
      = s.backlog_levels.length + 1 ∧
    (stepDay cfg useF day s).inventory_levels.length
      = s.inventory_levels.length + 1 := by
  unfold stepDay
  obtain ⟨h1, h2, h3⟩ := processT2Production_metrics cfg
    (placeT1Order cfg useF (fulfillOemOrders cfg (placeOemOrder cfg
      (updateForecast cfg useF (processOemDemand cfg
        (processArrivals (setPeriod s day)))))))
  obtain ⟨g1, g2, g3⟩ := placeT1Order_metrics cfg useF
    (fulfillOemOrders cfg (placeOemOrder cfg (updateForecast cfg useF
      (processOemDemand cfg (processArrivals (setPeriod s day))))))
  obtain ⟨f1, f2, f3⟩ := fulfillOemOrders_metrics cfg
    (placeOemOrder cfg (updateForecast cfg useF (processOemDemand cfg
      (processArrivals (setPeriod s day)))))
  obtain ⟨e1, e2, e3⟩ := placeOemOrder_metrics cfg
    (updateForecast cfg useF (processOemDemand cfg
      (processArrivals (setPeriod s day))))
  obtain ⟨d1, d2, d3⟩ := updateForecast_metrics cfg useF
    (processOemDemand cfg (processArrivals (setPeriod s day)))
  refine ⟨?_, ?_, ?_⟩ <;>
    simp [trackMetrics, h1, h2, h3, g1, g2, g3, f1, f2, f3,
      e1, e2, e3, d1, d2, d3, processOemDemand_metrics,
      processArrivals_metrics, setPeriod_wip, setPeriod_backlog,
      setPeriod_inventory]

/-- Over a whole run, each metric series grows by exactly one entry per
simulated period. -/
theorem runDays_metric_lengths (cfg : SimulationConfig) (useF : Bool) :
    ∀ (k : ℕ) (day : ℤ) (s : SimState),
      (runDays cfg useF k day s).wip_levels.length
        = s.wip_levels.length + k ∧
      (runDays cfg useF k day s).backlog_levels.length
        = s.backlog_levels.length + k ∧
      (runDays cfg useF k day s).inventory_levels.length
        = s.inventory_levels.length + k := by
  intro k
  induction k with
  | zero => exact fun day s => by simp [runDays]
  | succ n ih =>
    intro day s
    obtain ⟨i1, i2, i3⟩ := ih (day + 1) (stepDay cfg useF day s)
    obtain ⟨s1, s2, s3⟩ := stepDay_metric_lengths cfg useF day s
    simp only [runDays]
    rw [i1, i2, i3, s1, s2, s3]
    omega

/-- C10: at run end the raw per-period series `wip_levels`,
`backlog_levels` and `inventory_levels` each hold exactly one reading per
simulated period, and the two series exposed in the returned
`SimulationResults` are those very lists, unchanged. -/
theorem per_period_series_lengths (cfg : SimulationConfig) (name : String)
    (h : 0 ≤ cfg.num_periods) :
    ((finalState cfg (useForecastOf name)).wip_levels.length : ℤ)
      = cfg.num_periods ∧
    ((finalState cfg (useForecastOf name)).backlog_levels.length : ℤ)
      = cfg.num_periods ∧
    ((finalState cfg (useForecastOf name)).inventory_levels.length : ℤ)
      = cfg.num_periods ∧
    (runSimulation cfg name).wip_levels
      = (finalState cfg (useForecastOf name)).wip_levels ∧
    (runSimulation cfg name).backlog_levels
      = (finalState cfg (useForecastOf name)).backlog_levels := by
  obtain ⟨h1, h2, h3⟩ := runDays_metric_lengths cfg (useForecastOf name)
    cfg.num_periods.toNat 0 (initState cfg)
  refine ⟨?_, ?_, ?_, rfl, rfl⟩
  · unfold finalState stateAfter
    rw [h1]
    simp [initState]
    omega
  · unfold finalState stateAfter
    rw [h2]
    simp [initState]
    omega
  · unfold finalState stateAfter
    rw [h3]
    simp [initState]
    omega

/-- Witness for the C10 theorem at the concrete configuration. -/
theorem per_period_series_lengths_witness :
    (0 : ℤ) ≤ cfgA.num_periods ∧
    ((finalState cfgA (useForecastOf "baseline")).wip_levels.length : ℤ)
      = cfgA.num_periods :=
  ⟨by decide, (per_period_series_lengths cfgA "baseline" (by decide)).1⟩

/-- C4: determinism in (config, scenario): `run_simulation` on a freshly
constructed instance is a pure function of the configuration — `reset`
rebuilds the whole state, including the generator reseeded from
`config.seed`, from the configuration alone — and of the scenario name,
so two fresh invocations with identical arguments agree in every field,
including the raw per-period series; likewise each half of
`compare_scenarios` equals the corresponding standalone run. -/
theorem run_simulation_deterministic (cfg : SimulationConfig)
    (name : String) :
    runSimulation cfg name = runSimulation cfg name ∧
    (compare_scenarios cfg).baseline = run_baseline cfg ∧
    (compare_scenarios cfg).forecast_sharing = run_forecast_sharing cfg :=
  ⟨rfl, rfl, rfl⟩

/-- Sentinel behaviour of `_calculate_results` on an arbitrary state. -/
theorem calculateResults_sentinels (name : String) (s : SimState) :
    (s.lead_times = [] →
      (calculateResults name s).mean_lead_time = 0 ∧
      (calculateResults name s).lead_time_std = 0 ∧
      (calculateResults name s).worst_case_lead_time = 0) ∧
    (s.total_shipments = 0 →
      (calculateResults name s).otif_percentage = 0) ∧
    (s.total_customer_demand = 0 →
      (calculateResults name s).fill_rate = 0) ∧
    (pstdev (s.oem_order_history.map (fun n => (n : ℚ))) = 0 →
      (calculateResults name s).bullwhip_effect = 0) := by
  refine ⟨?_, ?_, ?_, ?_⟩
  · intro h
    simp [calculateResults, h]
  · intro h
    simp [calculateResults, h]
  · intro h
    simp [calculateResults, h]
  · intro h
    simp only [calculateResults]
    split_ifs with h1 h2 h3 <;> simp_all

/-- C6: every degenerate statistic degrades to the sentinel 0 rather than
failing: with no recorded lead times the mean, stddev and worst-case lead
time are 0; with no completed shipments the OTIF percentage is 0; with no
cumulative customer demand the fill rate is 0; and when the population
stddev of the OEM order-size history is 0 the bullwhip ratio is 0. -/
theorem degenerate_statistics_sentinel_zero (cfg : SimulationConfig)
    (name : String) :
    ((finalState cfg (useForecastOf name)).lead_times = [] →
      (runSimulation cfg name).mean_lead_time = 0 ∧
      (runSimulation cfg name).lead_time_std = 0 ∧
      (runSimulation cfg name).worst_case_lead_time = 0) ∧
    ((finalState cfg (useForecastOf name)).total_shipments = 0 →
      (runSimulation cfg name).otif_percentage = 0) ∧
    ((finalState cfg (useForecastOf name)).total_customer_demand = 0 →
      (runSimulation cfg name).fill_rate = 0) ∧
    (pstdev (((finalState cfg (useForecastOf name)).oem_order_history).map
        (fun n => (n : ℚ))) = 0 →
      (runSimulation cfg name).bullwhip_effect = 0) :=
  calculateResults_sentinels name (finalState cfg (useForecastOf name))

/-- Witness for the C6 theorem at a concrete configuration realizing all
four degenerate situations. -/
theorem degenerate_statistics_sentinel_zero_witness :
    (finalState cfgZ (useForecastOf "baseline")).lead_times = [] ∧
    (runSimulation cfgZ "baseline").mean_lead_time = 0 ∧
    (runSimulation cfgZ "baseline").otif_percentage = 0 ∧
    (runSimulation cfgZ "baseline").fill_rate = 0 ∧
    (runSimulation cfgZ "baseline").bullwhip_effect = 0 := by
  refine ⟨by with_unfolding_all rfl, ?_, ?_, ?_, ?_⟩
  · exact ((degenerate_statistics_sentinel_zero cfgZ "baseline").1
      (by with_unfolding_all rfl)).1
  · exact (degenerate_statistics_sentinel_zero cfgZ "baseline").2.1
      (by with_unfolding_all rfl)
  · exact (degenerate_statistics_sentinel_zero cfgZ "baseline").2.2.1
      (by with_unfolding_all rfl)
  · exact (degenerate_statistics_sentinel_zero cfgZ "baseline").2.2.2
      (by with_unfolding_all rfl)

/-- Under the "perfect" model, `_generate_forecast` emits the ground-truth
mean at every horizon step and consumes no randomness. -/
theorem generateForecastAux_perfect (fc : ForecastSharingConfig) (avg : ℤ)
    (hm : fc.forecast_accuracy_model = .perfect) :
    ∀ (n : ℕ) (r : Rng),
      generateForecastAux fc avg n r = (List.replicate n ((avg : ℚ)), r) := by
  intro n
  induction n with
  | zero => intro r; rfl
  | succ k ih =>
    intro r
    simp only [generateForecastAux, hm, ih]
    rfl

/-- Under the "noise" model, `_generate_forecast` emits, for each horizon
step, the ground truth plus a Gaussian draw of the configured stddev taken
from the next cell of the shared stream, floored at zero. -/
theorem generateForecastAux_noise (fc : ForecastSharingConfig) (avg : ℤ)
    (hm : fc.forecast_accuracy_model = .noise) :
    ∀ (n : ℕ) (tape : ℕ → ℚ) (i : ℕ),
      generateForecastAux fc avg n ⟨tape, i⟩ =
        ((List.range n).map (fun j =>
          max 0 ((avg : ℚ) + fc.forecast_error_std
            * stdNormalInv (tape (i + j)))),
         ⟨tape, i + n⟩) := by
  intro n
  induction n with
  | zero => intro tape i; simp [generateForecastAux]
  | succ k ih =>
    intro tape i
    rw [generateForecastAux, hm]
    simp only [ih]
    dsimp only [gaussDraw, Rng.next]
    rw [List.range_succ_eq_map, List.map_cons, List.map_map]
    simp only [Prod.mk.injEq, Rng.mk.injEq]
    refine ⟨?_, trivial, by omega⟩
    rw [zero_add, Nat.add_zero]
    refine congrArg₂ List.cons rfl ?_
    refine List.map_congr_left ?_
    intro j hj
    simp only [Function.comp]
    rw [Nat.succ_add, Nat.add_succ]

/-- C7: contract of `ForecastModule.maybe_update`: the forecast is
regenerated exactly on periods that are multiples of the update
frequency, and otherwise the cached vector and the stream are returned
unchanged; a regenerated vector has length `forecast_horizon`, its entries
are the ground-truth mean under "perfect" (no randomness consumed), and
under "noise" each entry is the ground truth plus an independent Gaussian
draw of the configured stddev from the shared stream, floored at zero. -/
theorem maybe_update_contract (fc : ForecastSharingConfig) (avg : ℤ)
    (day : ℤ) (cur : List ℚ) (tape : ℕ → ℚ) (i : ℕ)
    (hfreq : 1 ≤ fc.forecast_update_frequency) :
    (day % fc.forecast_update_frequency ≠ 0 →
      maybeUpdate fc avg day cur ⟨tape, i⟩ = (cur, ⟨tape, i⟩)) ∧
    (day % fc.forecast_update_frequency = 0 →
      (maybeUpdate fc avg day cur ⟨tape, i⟩).1.length
        = fc.forecast_horizon.toNat ∧
      (fc.forecast_accuracy_model = .perfect →
        maybeUpdate fc avg day cur ⟨tape, i⟩ =
          (List.replicate fc.forecast_horizon.toNat ((avg : ℚ)),
           ⟨tape, i⟩)) ∧
      (fc.forecast_accuracy_model = .noise →
        maybeUpdate fc avg day cur ⟨tape, i⟩ =
          ((List.range fc.forecast_horizon.toNat).map (fun j =>
            max 0 ((avg : ℚ) + fc.forecast_error_std
              * stdNormalInv (tape (i + j)))),
           ⟨tape, i + fc.forecast_horizon.toNat⟩))) := by
  constructor
  · intro h
    unfold maybeUpdate
    rw [if_neg h]
  · intro h
    refine ⟨?_, ?_, ?_⟩
    · unfold maybeUpdate generateForecast
      rw [if_pos h]
      cases hm : fc.forecast_accuracy_model
      · rw [generateForecastAux_perfect fc avg hm]
        simp
      · rw [generateForecastAux_noise fc avg hm]
        simp
    · intro hm
      unfold maybeUpdate generateForecast
      rw [if_pos h, generateForecastAux_perfect fc avg hm]
    · intro hm
      unfold maybeUpdate generateForecast
      rw [if_pos h, generateForecastAux_noise fc avg hm]

/-- Witness for the C7 theorem at a concrete input. -/
theorem maybe_update_contract_witness :
    (1 : ℤ) ≤ fcA.forecast_update_frequency ∧
    (0 : ℤ) % fcA.forecast_update_frequency = 0 ∧
    maybeUpdate fcA 10 0 [] (mkRng 0) = ([10], mkRng 0) := by
  have h := (maybe_update_contract fcA 10 0 [] (seedTape 0) 0
    (by decide)).2 (by decide)
  exact ⟨by decide, by decide, h.2.1 rfl⟩

/-- C3: on every review period, Tier-1 pushes into the Tier-2 backlog an
order of size `max(0, target - inventory position)` exactly when the
inventory position is at or below the reorder point (and records the
ordered quantity), where the target is the order-up-to constant in the
baseline and, under forecast-sharing, that constant plus the rounded
blend of historical and forecast-implied cycle demand. -/
theorem t1_order_policy_correct (cfg : SimulationConfig) (useF : Bool)
    (s : SimState)
    (hrev : s.current_period % cfg.t1_review_period_days = 0)
    (hcyc : 1 ≤ cfg.oem_order_cycle_days)
    (havg : 0 ≤ cfg.avg_daily_demand)
    (hw0 : 0 ≤ cfg.forecast_sharing.t1_forecast_weight)
    (hw1 : cfg.forecast_sharing.t1_forecast_weight ≤ 1)
    (hfc : ∀ x ∈ s.active_forecast, 0 ≤ x)
    (hne : useF = true → s.active_forecast ≠ []) :
    (placeT1Order cfg useF s).t2_backlog
      = s.t2_backlog + specT1OrderQty cfg useF s ∧
    (placeT1Order cfg useF s).t1_order_history
      = s.t1_order_history ++ [specT1OrderQty cfg useF s] := by
  have htarget : t1TargetOrderUpTo cfg useF s.active_forecast
      = specT1Target cfg useF s.active_forecast := by
    unfold t1TargetOrderUpTo specT1Target
    cases useF with
    | false => simp
    | true =>
      rw [if_pos ⟨rfl, hne rfl⟩, if_pos rfl]
      dsimp only
      rw [max_eq_right hcyc]
      congr 1
      have h1 : (0 : ℚ) ≤ (cfg.avg_daily_demand : ℚ) := by exact_mod_cast havg
      have h2 : (0 : ℚ) ≤ (cfg.oem_order_cycle_days : ℚ) := by
        have h2a : (0 : ℤ) ≤ cfg.oem_order_cycle_days :=
          le_trans zero_le_one hcyc
        exact_mod_cast h2a
      have h3 : (0 : ℚ) ≤ (s.active_forecast.take
          cfg.oem_order_cycle_days.toNat).sum :=
        List.sum_nonneg (fun x hx => hfc x (List.mem_of_mem_take hx))
      have h4 : (0 : ℚ) ≤ 1 - cfg.forecast_sharing.t1_forecast_weight :=
        sub_nonneg.mpr hw1
      exact congrArg pyround (max_eq_right
        (add_nonneg (mul_nonneg h4 (mul_nonneg h1 h2)) (mul_nonneg hw0 h3)))
  unfold placeT1Order
  rw [if_neg (not_not_intro hrev)]
  dsimp only
  rw [htarget]
  unfold specT1OrderQty inventoryPositionOf
  exact ⟨rfl, rfl⟩

/-- Witness for the C3 theorem at a concrete configuration and state. -/
theorem t1_order_policy_correct_witness :
    (initState cfgA).current_period % cfgA.t1_review_period_days = 0 ∧
    (placeT1Order cfgA false (initState cfgA)).t2_backlog
      = (initState cfgA).t2_backlog
        + specT1OrderQty cfgA false (initState cfgA) :=
  ⟨by decide, (t1_order_policy_correct cfgA false (initState cfgA)
    (by with_unfolding_all decide) (by with_unfolding_all decide)
    (by with_unfolding_all decide) (by with_unfolding_all decide)
    (by with_unfolding_all decide) (by with_unfolding_all decide)
    (by with_unfolding_all decide)).1⟩

/-- Characterization of the fulfilment loop of `_fulfill_oem_orders`: it
creates some list of new shipments and, per created shipment and at
creation time, appends its lead time (arrival minus placement day), counts
it, and OTIF-qualifies it. -/
theorem fulfill_fold_spec (cfg : SimulationConfig) (day : ℤ) :
    ∀ (l : List OemOrder) (a : FulfillAcc),
      ∃ new : List T1Shipment,
        (l.foldl (fulfillOrderStep cfg day) a).ships = a.ships ++ new ∧
        (l.foldl (fulfillOrderStep cfg day) a).leads
          = a.leads ++ new.map
              (fun sh => ((sh.arrival_day - sh.order_day : ℤ) : ℚ)) ∧
        (l.foldl (fulfillOrderStep cfg day) a).total
          = a.total + new.length ∧
        (l.foldl (fulfillOrderStep cfg day) a).onTime
          = a.onTime + new.countP (fun sh =>
              ((sh.arrival_day - sh.order_day : ℤ) : ℚ)
                ≤ cfg.otif_target_days) := by
  intro l
  induction l with
  | nil =>
    intro a
    exact ⟨[], by simp, by simp, by simp, by simp⟩
  | cons o rest ih =>
    intro a
    obtain ⟨new, h1, h2, h3, h4⟩ := ih (fulfillOrderStep cfg day a o)
    by_cases hc : o.remaining = 0 ∨ a.inv = 0
    · have hs : (fulfillOrderStep cfg day a o).ships = a.ships := by
        unfold fulfillOrderStep
        rw [if_pos hc]
      have hl : (fulfillOrderStep cfg day a o).leads = a.leads := by
        unfold fulfillOrderStep
        rw [if_pos hc]
      have ht : (fulfillOrderStep cfg day a o).total = a.total := by
        unfold fulfillOrderStep
        rw [if_pos hc]
      have ho : (fulfillOrderStep cfg day a o).onTime = a.onTime := by
        unfold fulfillOrderStep
        rw [if_pos hc]
      exact ⟨new,
        by simp only [List.foldl_cons]; rw [h1, hs],
        by simp only [List.foldl_cons]; rw [h2, hl],
        by simp only [List.foldl_cons]; rw [h3, ht],
        by simp only [List.foldl_cons]; rw [h4, ho]⟩
    · have hs : (fulfillOrderStep cfg day a o).ships = a.ships ++
          [⟨day + ⌈cfg.t1_to_oem_lead_time_base +
              (uniformDraw 0 cfg.t1_to_oem_lead_time_uniform_max a.rng).1⌉,
            min o.remaining a.inv, o.order_day⟩] := by
        unfold fulfillOrderStep
        rw [if_neg hc]
      have hl : (fulfillOrderStep cfg day a o).leads = a.leads ++
          [((day + ⌈cfg.t1_to_oem_lead_time_base +
              (uniformDraw 0 cfg.t1_to_oem_lead_time_uniform_max a.rng).1⌉
              - o.order_day : ℤ) : ℚ)] := by
        unfold fulfillOrderStep
        rw [if_neg hc]
      have ht : (fulfillOrderStep cfg day a o).total = a.total + 1 := by
        unfold fulfillOrderStep
        rw [if_neg hc]
      have ho : (fulfillOrderStep cfg day a o).onTime = a.onTime +
          (if ((day + ⌈cfg.t1_to_oem_lead_time_base +
              (uniformDraw 0 cfg.t1_to_oem_lead_time_uniform_max a.rng).1⌉
              - o.order_day : ℤ) : ℚ) ≤ cfg.otif_target_days
           then 1 else 0) := by
        unfold fulfillOrderStep
        rw [if_neg hc]
      refine ⟨⟨day + ⌈cfg.t1_to_oem_lead_time_base +
          (uniformDraw 0 cfg.t1_to_oem_lead_time_uniform_max a.rng).1⌉,
          min o.remaining a.inv, o.order_day⟩ :: new, ?_, ?_, ?_, ?_⟩
      · simp only [List.foldl_cons]
        rw [h1, hs]
        simp
      · simp only [List.foldl_cons]
        rw [h2, hl]
        simp
      · simp only [List.foldl_cons]
        rw [h3, ht]
        simp only [List.length_cons]
        omega
      · simp only [List.foldl_cons]
        rw [h4, ho, List.countP_cons]
        simp only [decide_eq_true_eq]
        by_cases hq : ((day + ⌈cfg.t1_to_oem_lead_time_base +
            (uniformDraw 0 cfg.t1_to_oem_lead_time_uniform_max a.rng).1⌉
            - o.order_day : ℤ) : ℚ) ≤ cfg.otif_target_days
        · rw [if_pos hq, if_pos hq]
          omega
        · rw [if_neg hq, if_neg hq]
          omega

/-- C5 (amended): the realized lead time (arrival minus placement period)
of a shipment is appended, counted in `total_shipments` and
OTIF-qualified already at dispatch time, inside `_fulfill_oem_orders`,
with the arrival period precomputed; the arrival step
`_process_arrivals` merely releases the quantity into OEM inventory and
records no lead-time statistic, so recorded lead times may belong to
shipments whose scheduled arrival lies beyond the simulated horizon. -/
theorem lead_time_recorded_at_dispatch (cfg : SimulationConfig)
    (s : SimState) :
    ((processArrivals s).lead_times = s.lead_times ∧
     (processArrivals s).total_shipments = s.total_shipments ∧
     (processArrivals s).on_time_shipments = s.on_time_shipments) ∧
    ∃ new : List T1Shipment,
      (fulfillOemOrders cfg s).t1_shipments = s.t1_shipments ++ new ∧
      (fulfillOemOrders cfg s).lead_times
        = s.lead_times ++ new.map
            (fun sh => ((sh.arrival_day - sh.order_day : ℤ) : ℚ)) ∧
      (fulfillOemOrders cfg s).total_shipments
        = s.total_shipments + new.length ∧
      (fulfillOemOrders cfg s).on_time_shipments
        = s.on_time_shipments + new.countP (fun sh =>
            ((sh.arrival_day - sh.order_day : ℤ) : ℚ)
              ≤ cfg.otif_target_days) := by
  refine ⟨⟨rfl, rfl, rfl⟩, ?_⟩
  obtain ⟨new, h1, h2, h3, h4⟩ := fulfill_fold_spec cfg s.current_period
    s.oem_orders ⟨s.t1_inventory, s.rng, [], [], 0, 0, []⟩
  refine ⟨new, ?_, ?_, ?_, ?_⟩
  · unfold fulfillOemOrders
    dsimp only
    rw [h1]
    simp
  · unfold fulfillOemOrders
    dsimp only
    rw [h2]
    simp
  · unfold fulfillOemOrders
    dsimp only
    rw [h3]
    simp
  · unfold fulfillOemOrders
    dsimp only
    rw [h4]
    simp

/-- C5 counterexample: on the concrete one-period configuration `cfgB`,
the run records the lead time of its single dispatched shipment (and
counts it as a completed shipment) although the shipment's scheduled
arrival period, 2, lies beyond the one-period horizon, so the shipment is
never delivered within the simulated run. -/
theorem lead_time_recorded_before_delivery :
    cfgB.num_periods = 1 ∧
    (finalState cfgB (useForecastOf "baseline")).lead_times = [2] ∧
    (finalState cfgB (useForecastOf "baseline")).total_shipments = 1 ∧
    (finalState cfgB (useForecastOf "baseline")).t1_shipments = [⟨2, 9, 0⟩] ∧
    ∀ sh ∈ (finalState cfgB (useForecastOf "baseline")).t1_shipments,
      cfgB.num_periods ≤ sh.arrival_day := by
  refine ⟨rfl, ?_, ?_, ?_, ?_⟩ <;> with_unfolding_all decide

/-- The Poisson sampler never returns a negative count. -/
theorem poissonDraw_nonneg (lam : ℚ) (r : Rng) : 0 ≤ (poissonDraw lam r).1 := by
  unfold poissonDraw
  split
  · exact le_refl 0
  · exact le_max_left 0 _

theorem nonneg_processArrivals (s : SimState) (h : NonnegState s) :
    NonnegState (processArrivals s) := by
  obtain ⟨h1, h2, h3, h4, h5, h6⟩ := h
  refine ⟨?_, ?_, h3, h4, ?_, ?_⟩
  · refine add_nonneg h1 (List.sum_nonneg ?_)
    intro x hx
    obtain ⟨sh, hsh, rfl⟩ := List.mem_map.mp hx
    exact h6 sh (List.mem_of_mem_filter hsh)
  · refine add_nonneg h2 (List.sum_nonneg ?_)
    intro x hx
    obtain ⟨sh, hsh, rfl⟩ := List.mem_map.mp hx
    exact h5 sh (List.mem_of_mem_filter hsh)
  · intro sh hsh
    exact h5 sh (List.mem_of_mem_filter hsh)
  · intro sh hsh
    exact h6 sh (List.mem_of_mem_filter hsh)

theorem nonneg_processOemDemand (cfg : SimulationConfig) (s : SimState)
    (h : NonnegState s) : NonnegState (processOemDemand cfg s) := by
  obtain ⟨h1, h2, h3, h4, h5, h6⟩ := h
  exact ⟨h1, sub_nonneg.mpr (min_le_right _ _), h3, h4, h5, h6⟩

theorem nonneg_updateForecast (cfg : SimulationConfig) (useF : Bool)
    (s : SimState) (h : NonnegState s) :
    NonnegState (updateForecast cfg useF s) := by
  obtain ⟨h1, h2, h3, h4, h5, h6⟩ := h
  unfold updateForecast
  split
  · exact ⟨h1, h2, h3, h4, h5, h6⟩
  · exact ⟨h1, h2, h3, h4, h5, h6⟩

theorem nonneg_placeOemOrder (cfg : SimulationConfig) (s : SimState)
    (h : NonnegState s) : NonnegState (placeOemOrder cfg s) := by
  obtain ⟨h1, h2, h3, h4, h5, h6⟩ := h
  unfold placeOemOrder
  split
  · exact ⟨h1, h2, h3, h4, h5, h6⟩
  · dsimp only
    split
    · refine ⟨h1, h2, h3, ?_, h5, h6⟩
      intro o ho
      rcases List.mem_append.mp ho with hin | hnew
      · exact h4 o hin
      · rw [List.mem_singleton.mp hnew]
        exact poissonDraw_nonneg _ _
    · exact ⟨h1, h2, h3, h4, h5, h6⟩

/-- The fulfilment fold keeps inventory, created-shipment quantities and
processed-order remainders non-negative. -/
theorem fulfill_fold_nonneg (cfg : SimulationConfig) (day : ℤ) :
    ∀ (l : List OemOrder) (a : FulfillAcc),
      (∀ o ∈ l, 0 ≤ o.remaining) → 0 ≤ a.inv →
      (∀ sh ∈ a.ships, 0 ≤ sh.qty) →
      (∀ o ∈ a.processed, 0 ≤ o.remaining) →
      0 ≤ (l.foldl (fulfillOrderStep cfg day) a).inv ∧
      (∀ sh ∈ (l.foldl (fulfillOrderStep cfg day) a).ships, 0 ≤ sh.qty) ∧
      (∀ o ∈ (l.foldl (fulfillOrderStep cfg day) a).processed,
        0 ≤ o.remaining) := by
  intro l
  induction l with
  | nil =>
    intro a _ ha hs hp
    exact ⟨ha, hs, hp⟩
  | cons o rest ih =>
    intro a hl ha hs hp
    have ho : 0 ≤ o.remaining := hl o (List.mem_cons_self o rest)
    have hrest : ∀ x ∈ rest, 0 ≤ x.remaining :=
      fun x hx => hl x (List.mem_cons_of_mem o hx)
    simp only [List.foldl_cons]
    by_cases hc : o.remaining = 0 ∨ a.inv = 0
    · have hstep : fulfillOrderStep cfg day a o =
          { a with processed := a.processed ++ [o] } := by
        unfold fulfillOrderStep
        rw [if_pos hc]
      rw [hstep]
      refine ih _ hrest ha hs ?_
      intro x hx
      rcases List.mem_append.mp hx with hin | hnew
      · exact hp x hin
      · rw [List.mem_singleton.mp hnew]
        exact ho
    · have hstep : fulfillOrderStep cfg day a o =
          { inv := a.inv - min o.remaining a.inv
            rng := (uniformDraw 0 cfg.t1_to_oem_lead_time_uniform_max a.rng).2
            ships := a.ships ++ [⟨day + ⌈cfg.t1_to_oem_lead_time_base +
              (uniformDraw 0 cfg.t1_to_oem_lead_time_uniform_max a.rng).1⌉,
              min o.remaining a.inv, o.order_day⟩]
            leads := a.leads ++ [((day + ⌈cfg.t1_to_oem_lead_time_base +
              (uniformDraw 0 cfg.t1_to_oem_lead_time_uniform_max a.rng).1⌉
              - o.order_day : ℤ) : ℚ)]
            onTime := a.onTime + (if ((day + ⌈cfg.t1_to_oem_lead_time_base +
              (uniformDraw 0 cfg.t1_to_oem_lead_time_uniform_max a.rng).1⌉
              - o.order_day : ℤ) : ℚ) ≤ cfg.otif_target_days then 1 else 0)
            total := a.total + 1
            processed := a.processed ++
              [⟨o.order_day, o.remaining - min o.remaining a.inv⟩] } := by
        unfold fulfillOrderStep
        rw [if_neg hc]
      rw [hstep]
      refine ih _ hrest (sub_nonneg.mpr (min_le_right _ _)) ?_ ?_
      · intro sh hsh
        rcases List.mem_append.mp hsh with hin | hnew
        · exact hs sh hin
        · rw [List.mem_singleton.mp hnew]
          exact le_min ho ha
      · intro x hx
        rcases List.mem_append.mp hx with hin | hnew
        · exact hp x hin
        · rw [List.mem_singleton.mp hnew]
          exact sub_nonneg.mpr (min_le_left _ _)

theorem nonneg_fulfillOemOrders (cfg : SimulationConfig) (s : SimState)
    (h : NonnegState s) : NonnegState (fulfillOemOrders cfg s) := by
  obtain ⟨h1, h2, h3, h4, h5, h6⟩ := h
  obtain ⟨g1, g2, g3⟩ := fulfill_fold_nonneg cfg s.current_period
    s.oem_orders ⟨s.t1_inventory, s.rng, [], [], 0, 0, []⟩ h4 h1
    (fun sh hsh => absurd hsh (List.not_mem_nil sh))
    (fun o ho => absurd ho (List.not_mem_nil o))
  refine ⟨g1, h2, h3, ?_, ?_, h6⟩
  · intro o ho
    exact g3 o (List.mem_of_mem_filter ho)
  · intro sh hsh
    rcases List.mem_append.mp hsh with hin | hnew
    · exact h5 sh hin
    · exact g2 sh hnew

theorem nonneg_placeT1Order (cfg : SimulationConfig) (useF : Bool)
    (s : SimState) (h : NonnegState s) :
    NonnegState (placeT1Order cfg useF s) := by
  obtain ⟨h1, h2, h3, h4, h5, h6⟩ := h
  unfold placeT1Order
  split
  · exact ⟨h1, h2, h3, h4, h5, h6⟩
  · dsimp only
    refine ⟨h1, h2, add_nonneg h3 ?_, h4, h5, h6⟩
    split
    · exact le_max_left 0 _
    · exact le_refl 0

theorem nonneg_processT2Production (cfg : SimulationConfig) (s : SimState)
    (h : NonnegState s) : NonnegState (processT2Production cfg s) := by
  obtain ⟨h1, h2, h3, h4, h5, h6⟩ := h
  simp only [processT2Production]
  split
  · split
    · rename_i hpos
      refine ⟨h1, h2, sub_nonneg.mpr (min_le_left _ _), h4, h5, ?_⟩
      intro sh hsh
      rcases List.mem_append.mp hsh with hin | hnew
      · exact h6 sh hin
      · rw [List.mem_singleton.mp hnew]
        exact le_of_lt hpos
    · exact ⟨h1, h2, h3, h4, h5, h6⟩
  · split
    · rename_i hpos
      refine ⟨h1, h2, sub_nonneg.mpr (min_le_left _ _), h4, h5, ?_⟩
      intro sh hsh
      rcases List.mem_append.mp hsh with hin | hnew
      · exact h6 sh hin
      · rw [List.mem_singleton.mp hnew]
        exact le_of_lt hpos
    · exact ⟨h1, h2, h3, h4, h5, h6⟩

theorem nonneg_stepDay (cfg : SimulationConfig) (useF : Bool) (day : ℤ)
    (s : SimState) (h : NonnegState s) :
    NonnegState (stepDay cfg useF day s) :=
  nonneg_processT2Production cfg _
    (nonneg_placeT1Order cfg useF _
      (nonneg_fulfillOemOrders cfg _
        (nonneg_placeOemOrder cfg _
          (nonneg_updateForecast cfg useF _
            (nonneg_processOemDemand cfg _
              (nonneg_processArrivals _ h))))))

theorem nonneg_runDays (cfg : SimulationConfig) (useF : Bool) :
    ∀ (k : ℕ) (day : ℤ) (s : SimState), NonnegState s →
      NonnegState (runDays cfg useF k day s) := by
  intro k
  induction k with
  | zero => exact fun day s h => h
  | succ n ih =>
    intro day s h
    exact ih (day + 1) (stepDay cfg useF day s) (nonneg_stepDay cfg useF day s h)

/-- C8: with non-negative initial inventories, at every period boundary of
a run both inventories and the Tier-2 backlog are non-negative and no open
OEM order has a negative remaining quantity. -/
theorem inventories_backlog_nonneg (cfg : SimulationConfig) (name : String)
    (k : ℕ) (hk : k ≤ cfg.num_periods.toNat)
    (h1 : 0 ≤ cfg.t1_initial_inventory)
    (h2 : 0 ≤ cfg.oem_initial_inventory) :
    0 ≤ (stateAfter cfg (useForecastOf name) k).t1_inventory ∧
    0 ≤ (stateAfter cfg (useForecastOf name) k).oem_inventory ∧
    0 ≤ (stateAfter cfg (useForecastOf name) k).t2_backlog ∧
    ∀ o ∈ (stateAfter cfg (useForecastOf name) k).oem_orders,
      0 ≤ o.remaining := by
  have hinit : NonnegState (initState cfg) := by
    refine ⟨h1, h2, le_refl 0, ?_, ?_, ?_⟩ <;>
      exact fun x hx => absurd hx (List.not_mem_nil x)
  obtain ⟨a, b, c, d, _, _⟩ :=
    nonneg_runDays cfg (useForecastOf name) k 0 (initState cfg) hinit
  exact ⟨a, b, c, d⟩

/-- Witness for the C8 theorem at a concrete configuration. -/
theorem inventories_backlog_nonneg_witness :
    2 ≤ cfgA.num_periods.toNat ∧
    (0 : ℤ) ≤ cfgA.t1_initial_inventory ∧
    (0 : ℤ) ≤ cfgA.oem_initial_inventory ∧
    0 ≤ (stateAfter cfgA (useForecastOf "baseline") 2).t1_inventory :=
  ⟨by decide, by decide, by decide,
    (inventories_backlog_nonneg cfgA "baseline" 2 (by decide) (by decide)
      (by decide)).1⟩

/-! Helper lemmas for C9: in the baseline scenario no phase reads the
forecast configuration or the forecast module's state, so replacing the
forecast parameters and the cached forecast vector commutes with every
phase. -/

theorem setPeriod_setCf (s : SimState) (c : List ℚ) (d : ℤ) :
    setPeriod (setCf s c) d = setCf (setPeriod s d) c := by
  cases s
  rfl

theorem processArrivals_fc (s : SimState) (c : List ℚ) :
    processArrivals (setCf s c) = setCf (processArrivals s) c := by
  cases s
  rfl

theorem processOemDemand_fc (cfg : SimulationConfig)
    (f : ForecastSharingConfig) (s : SimState) (c : List ℚ) :
    processOemDemand { cfg with forecast_sharing := f } (setCf s c)
      = setCf (processOemDemand cfg s) c := by
  cases s
  rfl

theorem updateForecast_baseline (cfg : SimulationConfig) (s : SimState) :
    updateForecast cfg false s = s := rfl

theorem placeOemOrder_fc (cfg : SimulationConfig)
    (f : ForecastSharingConfig) (s : SimState) (c : List ℚ) :
    placeOemOrder { cfg with forecast_sharing := f } (setCf s c)
      = setCf (placeOemOrder cfg s) c := by
  cases s
  unfold placeOemOrder setCf
  dsimp only
  split_ifs <;> rfl

theorem fulfillOrderStep_fc (cfg : SimulationConfig)
    (f : ForecastSharingConfig) :
    fulfillOrderStep { cfg with forecast_sharing := f }
      = fulfillOrderStep cfg := by
  funext day a o
  unfold fulfillOrderStep
  split_ifs <;> rfl

theorem fulfillOemOrders_fc (cfg : SimulationConfig)
    (f : ForecastSharingConfig) (s : SimState) (c : List ℚ) :
    fulfillOemOrders { cfg with forecast_sharing := f } (setCf s c)
      = setCf (fulfillOemOrders cfg s) c := by
  cases s
  unfold fulfillOemOrders setCf
  rw [fulfillOrderStep_fc]

theorem placeT1Order_fc (cfg : SimulationConfig)
    (f : ForecastSharingConfig) (s : SimState) (c : List ℚ) :
    placeT1Order { cfg with forecast_sharing := f } false (setCf s c)
      = setCf (placeT1Order cfg false s) c := by
  cases s
  unfold placeT1Order setCf t1TargetOrderUpTo t1Rop t1OrderUpTo
  dsimp only
  simp only [Bool.false_eq_true, false_and, ite_false]
  split_ifs <;> rfl

theorem processT2Production_fc (cfg : SimulationConfig)
    (f : ForecastSharingConfig) (s : SimState) (c : List ℚ) :
    processT2Production { cfg with forecast_sharing := f } (setCf s c)
      = setCf (processT2Production cfg s) c := by
  cases s
  unfold processT2Production setCf
  dsimp only
  split_ifs <;> rfl

theorem trackMetrics_fc (s : SimState) (c : List ℚ) :
    trackMetrics (setCf s c) = setCf (trackMetrics s) c := by
  cases s
  rfl

theorem stepDay_fc (cfg : SimulationConfig) (f : ForecastSharingConfig)
    (d : ℤ) (s : SimState) (c : List ℚ) :
    stepDay { cfg with forecast_sharing := f } false d (setCf s c)
      = setCf (stepDay cfg false d s) c := by
  unfold stepDay
  rw [setPeriod_setCf, processArrivals_fc, processOemDemand_fc,
    updateForecast_baseline, updateForecast_baseline, placeOemOrder_fc,
    fulfillOemOrders_fc, placeT1Order_fc, processT2Production_fc,
    trackMetrics_fc]

theorem runDays_fc (cfg : SimulationConfig) (f : ForecastSharingConfig) :
    ∀ (k : ℕ) (d : ℤ) (s : SimState) (c : List ℚ),
      runDays { cfg with forecast_sharing := f } false k d (setCf s c)
        = setCf (runDays cfg false k d s) c := by
  intro k
  induction k with
  | zero => intro d s c; rfl
  | succ n ih =>
    intro d s c
    simp only [runDays]
    rw [stepDay_fc, ih]

theorem calculateResults_fc (name : String) (s : SimState) (c : List ℚ) :
    calculateResults name (setCf s c) = calculateResults name s := by
  cases s
  rfl

/-- C9: the baseline scenario's results are entirely independent of every
forecast-sharing parameter: `run_baseline` returns identical
`SimulationResults` under any two forecast configurations, because the
baseline run never consults the forecast module (no forecast generation
consumes the stream, and the ordering decision ignores the forecast). -/
theorem baseline_independent_of_forecast_config (cfg : SimulationConfig)
    (f1 f2 : ForecastSharingConfig) :
    run_baseline { cfg with forecast_sharing := f1 }
      = run_baseline { cfg with forecast_sharing := f2 } := by
  have key : ∀ f : ForecastSharingConfig,
      run_baseline { cfg with forecast_sharing := f }
        = calculateResults "baseline"
            (runDays cfg false cfg.num_periods.toNat 0 (initState cfg)) := by
    intro f
    show calculateResults "baseline"
        (runDays { cfg with forecast_sharing := f } false
          cfg.num_periods.toNat 0
          (initState { cfg with forecast_sharing := f }))
      = _
    rw [show initState { cfg with forecast_sharing := f }
        = setCf (initState cfg)
            (List.replicate f.forecast_horizon.toNat
              ((cfg.avg_daily_demand : ℚ))) from rfl]
    rw [runDays_fc, calculateResults_fc]
  rw [key f1, key f2]

end SCSim
